import Mathlib

/-!
Shallow embedding of the x-leverage protocol core (financing engine,
liquidation engine, LP vault) for checking the natural-language
specification against the code.

Machine integers are modelled as Nat with explicit bounds: u64 values live
below U64 = 2 ^ 64, u128 intermediates below U128 = 2 ^ 128.  Checked
arithmetic returns Option, saturating arithmetic clamps at the type
maximum, and each instruction handler is a function from its pre-state and
arguments to a Result carrying either the post-state or the error code the
Rust handler would raise.  Pubkeys are modelled as Nat, with 0 standing for
Pubkey.default.  A failing handler commits no state change on-chain
(the Anchor runtime rolls the transaction back), so errors carry no state.
-/

namespace XLeverage

def U64 : Nat := 2 ^ 64

def U64MAX : Nat := 2 ^ 64 - 1

def U128 : Nat := 2 ^ 128

def U8 : Nat := 2 ^ 8

/-- u64 checked multiplication: some product when it fits in 64 bits. -/
def checkedMul (a b : Nat) : Option Nat :=
  if a * b < U64 then some (a * b) else none

/-- u64 checked addition: some sum when it fits in 64 bits. -/
def checkedAdd (a b : Nat) : Option Nat :=
  if a + b < U64 then some (a + b) else none

/-- u64 checked subtraction: some difference when it does not underflow. -/
def checkedSub (a b : Nat) : Option Nat :=
  if b ≤ a then some (a - b) else none

/-- u64 saturating addition, clamping at the u64 maximum.  Nat subtraction
is already saturating, so no companion is needed. -/
def satAdd (a b : Nat) : Nat := min (a + b) U64MAX

/-- u64 saturating multiplication, clamping at the u64 maximum. -/
def satMul (a b : Nat) : Nat := min (a * b) U64MAX

/-- Outcome of an instruction handler: either a value (post-state) or the
error code the Rust require macro or checked arithmetic raised. -/
inductive Result (ε α : Type) where
  | ok (value : α)
  | err (error : ε)
deriving DecidableEq

def Result.isOk {ε α : Type} : Result ε α → Bool
  | .ok _ => true
  | .err _ => false

/-! ## LP vault (src/programs/lp_vault/src/lib.rs) -/

inductive VaultError where
  | ZeroAmount
  | InvalidAmount
  | InsufficientShares
  | InsufficientLiquidity
  | MathOverflow
  | NoShares
  | UnderCollateralized
  | SharePriceRegression
  | Unauthorized
  | VaultPaused
deriving DecidableEq

structure LPVaultState where
  total_shares : Nat
  vault_usdc_balance : Nat
  locked_for_financing : Nat
  utilization : Nat
  authority : Nat
  paused : Bool
deriving DecidableEq

/-- Well-formed vault: every u64 field holds a representable value. -/
def LPVaultState.wf (s : LPVaultState) : Prop :=
  s.total_shares < U64 ∧ s.vault_usdc_balance < U64 ∧ s.locked_for_financing < U64

instance (s : LPVaultState) : Decidable s.wf := by
  unfold LPVaultState.wf; infer_instance

def LPVaultState.share_price (s : LPVaultState) : Nat :=
  if s.total_shares = 0 then 1000000
  else s.vault_usdc_balance / s.total_shares

def LPVaultState.update_utilization (s : LPVaultState) : LPVaultState :=
  { s with utilization :=
      if s.vault_usdc_balance = 0 then 0
      else satMul s.locked_for_financing 10000 / s.vault_usdc_balance }

def LPVaultState.redeem_amount (s : LPVaultState) (shares : Nat) :
    Result VaultError Nat :=
  if s.total_shares = 0 then .err .NoShares
  else
    let amount := s.vault_usdc_balance * shares / s.total_shares
    if amount < U64 then .ok amount else .err .MathOverflow

structure DepositOutcome where
  vault : LPVaultState
  shares : Nat
deriving DecidableEq

def deposit_usdc (s : LPVaultState) (amount : Nat) :
    Result VaultError DepositOutcome :=
  if s.paused then .err .VaultPaused
  else if ¬ amount > 0 then .err .ZeroAmount
  else
    let pre_shares := s.total_shares
    let pre_price := s.share_price
    let sharesOpt : Option Nat :=
      if s.total_shares = 0 then some amount
      else
        let shares128 := amount * s.total_shares / max s.vault_usdc_balance 1
        if shares128 < U64 then some shares128 else none
    match sharesOpt with
    | none => .err .MathOverflow
    | some shares =>
      let s1 : LPVaultState :=
        { s with total_shares := satAdd s.total_shares shares,
                 vault_usdc_balance := satAdd s.vault_usdc_balance amount }
      let post_price := s1.share_price
      if pre_shares > 0 ∧ ¬ post_price ≥ pre_price then .err .SharePriceRegression
      else .ok ⟨s1.update_utilization, shares⟩

structure WithdrawOutcome where
  vault : LPVaultState
  amount : Nat
deriving DecidableEq

def withdraw_usdc (s : LPVaultState) (shares : Nat) :
    Result VaultError WithdrawOutcome :=
  if s.paused then .err .VaultPaused
  else if ¬ shares > 0 then .err .ZeroAmount
  else if ¬ shares ≤ s.total_shares then .err .InsufficientShares
  else match s.redeem_amount shares with
  | .err e => .err e
  | .ok amount =>
    let available := s.vault_usdc_balance - s.locked_for_financing
    if ¬ amount ≤ available then .err .InsufficientLiquidity
    else
      let s1 : LPVaultState :=
        { s with total_shares := s.total_shares - shares,
                 vault_usdc_balance := s.vault_usdc_balance - amount }
      if ¬ s1.share_price > 0 then .err .SharePriceRegression
      else .ok ⟨s1.update_utilization, amount⟩

def allocate_financing (s : LPVaultState) (amount : Nat) :
    Result VaultError LPVaultState :=
  if s.paused then .err .VaultPaused
  else if ¬ amount ≤ s.vault_usdc_balance then .err .InsufficientLiquidity
  else
    let s1 : LPVaultState :=
      ({ s with vault_usdc_balance := s.vault_usdc_balance - amount,
                locked_for_financing := satAdd s.locked_for_financing amount
       }).update_utilization
    if ¬ s1.vault_usdc_balance ≥ s1.locked_for_financing then
      .err .UnderCollateralized
    else .ok s1

def release_financing (s : LPVaultState) (amount : Nat) :
    Result VaultError LPVaultState :=
  let unlock_amount := min amount s.locked_for_financing
  .ok (({ s with vault_usdc_balance := satAdd s.vault_usdc_balance amount,
                 locked_for_financing := s.locked_for_financing - unlock_amount
        }).update_utilization)

def write_off_bad_debt (s : LPVaultState)
    (caller financing_amount bad_debt : Nat) :
    Result VaultError LPVaultState :=
  if ¬ caller = s.authority then .err .Unauthorized
  else
    let unlock_amount := min financing_amount s.locked_for_financing
    .ok (({ s with
            locked_for_financing := s.locked_for_financing - unlock_amount,
            vault_usdc_balance := s.vault_usdc_balance - bad_debt
          }).update_utilization)

/-! ## Liquidation engine (src/programs/liquidation_engine/src/lib.rs) -/

inductive LiquidationError where
  | Unauthorized
  | ThresholdNotBreached
  | DoubleLiquidation
  | SnapshotMissing
  | MathOverflow
  | SlippageTooHigh
  | InvalidLiquidator
deriving DecidableEq

structure LiquidationAuthority where
  owner : Nat
  delegated_liquidator : Nat
  frozen_snapshot_slot : Nat
  frozen_price : Nat
  executed : Bool
  last_fee_accrued : Nat
  last_user_return : Nat
deriving DecidableEq

def LiquidationAuthority.can_liquidate (a : LiquidationAuthority) : Bool :=
  a.delegated_liquidator ≠ 0 && !a.executed

def MAX_SNAPSHOT_AGE_SLOTS : Nat := 100

def freeze_oracle_snapshot (a : LiquidationAuthority)
    (clock_slot price : Nat) :
    Result LiquidationError LiquidationAuthority :=
  if a.frozen_snapshot_slot > 0 ∧
      ¬ clock_slot - a.frozen_snapshot_slot ≥ MAX_SNAPSHOT_AGE_SLOTS then
    .err .DoubleLiquidation
  else
    .ok { a with frozen_snapshot_slot := clock_slot, frozen_price := price }

def execute_liquidation (a : LiquidationAuthority)
    (delegated_liquidator ltv liquidation_threshold slippage_bps : Nat) :
    Result LiquidationError LiquidationAuthority :=
  if ¬ a.delegated_liquidator ≠ 0 then .err .InvalidLiquidator
  else if ¬ a.delegated_liquidator = delegated_liquidator then .err .Unauthorized
  else if ¬ a.frozen_snapshot_slot > 0 then .err .SnapshotMissing
  else if ¬ ltv ≥ liquidation_threshold then .err .ThresholdNotBreached
  else if ¬ slippage_bps ≤ 200 then .err .SlippageTooHigh
  else .ok { a with executed := true }

def distribute_liquidation_proceeds (a : LiquidationAuthority)
    (total_proceeds : Nat) :
    Result LiquidationError LiquidationAuthority :=
  if ¬ total_proceeds * 3 < U128 then .err .MathOverflow
  else
    let fee := total_proceeds * 3 / 100 % U64
    match checkedSub total_proceeds fee with
    | none => .err .MathOverflow
    | some user_amount =>
      .ok { a with last_fee_accrued := fee,
                   last_user_return := user_amount,
                   frozen_snapshot_slot := 0,
                   frozen_price := 0,
                   executed := false }

/-! ## Financing engine (src/programs/financing_engine/src/lib.rs) -/

inductive FinancingError where
  | ZeroCollateral
  | InvalidTerm
  | MathOverflow
  | Unauthorized
  | InvalidAdmin
  | PositionTooSmall
  | NoOracleSources
  | TooManyOracleSources
  | InvalidOracleSource
  | InvalidOraclePrice
  | InvalidLtv
  | InvalidLtvOrdering
  | LtvTooHigh
  | InsufficientLiquidationBuffer
  | TooManyPositions
  | NegativeEquity
  | ProtocolPaused
  | LtvBreach
  | PositionHealthy
  | UseProtocolLiquidation
  | ExcessiveLiquidationPercentage
  | NotAtProtocolThreshold
  | InsufficientVaultBalance
  | InvalidDelegate
  | InvalidStatus
deriving DecidableEq

inductive PositionStatus where
  | Active
  | Matured
  | Liquidated
  | Closed
deriving DecidableEq

structure ProtocolConfig where
  admin_authority : Nat
  protocol_paused : Bool
deriving DecidableEq

structure UserPositionCounter where
  user : Nat
  open_positions : Nat
  total_positions : Nat
deriving DecidableEq

def MAX_POSITIONS : Nat := 250

structure FinancingState where
  user_pubkey : Nat
  position_index : Nat
  collateral_mint : Nat
  collateral_amount : Nat
  collateral_usd_value : Nat
  financed_mint : Nat
  financed_amount : Nat
  financed_purchase_price_usdc : Nat
  financed_usd_value : Nat
  deferred_payment_amount : Nat
  markup_fees : Nat
  initial_ltv : Nat
  max_ltv : Nat
  liquidation_threshold : Nat
  term_start : Int
  term_end : Int
  carry_enabled : Bool
  oracle_sources : List Nat
  delegated_settlement_authority : Nat
  delegated_liquidation_authority : Nat
  position_status : PositionStatus
deriving DecidableEq

def PERMISSIONLESS_LIQ_THRESHOLD : Nat := 7300

def PROTOCOL_LIQ_THRESHOLD : Nat := 7500

def EXTERNAL_LIQUIDATOR_BONUS_BPS : Nat := 500

def FORCED_LIQ_FEE_BPS : Nat := 500

def MAX_EXTERNAL_LIQ_PERCENTAGE : Nat := 50

/-- Single custody model: only the collateral value counts toward LTV. -/
def calculate_position_value_for_ltv (state : FinancingState) :
    Result FinancingError Nat :=
  .ok state.collateral_usd_value

def compute_ltv (obligations collateral_value : Nat) :
    Result FinancingError Nat :=
  if ¬ collateral_value > 0 then .err .ZeroCollateral
  else match checkedMul obligations 10000 with
  | none => .err .MathOverflow
  | some n => .ok (n / collateral_value)

/-- Mock oracle price table keyed by mint pubkey.  The four known mints
from the source are modelled as the distinct constants 1..4; the price is
in 8-decimal USD and the second component is the asset decimal count. -/
def SOL_MINT : Nat := 1

def ETH_MINT : Nat := 2

def BTC_MINT : Nat := 3

def XNT_MINT : Nat := 4

def mintPrice (mint : Nat) : Option (Nat × Nat) :=
  if mint = SOL_MINT then some (15000000000, 9)
  else if mint = ETH_MINT then some (300000000000, 9)
  else if mint = BTC_MINT then some (10000000000000, 8)
  else if mint = XNT_MINT then some (100000000, 9)
  else none

/-- Mock swap of USDC into the financed asset.  The vault token balance is
passed in because the Rust function reads it from the vault ATA account. -/
def mock_swap_usdc_to_asset
    (vault_financed_balance usdc_amount financed_mint : Nat) :
    Result FinancingError Nat :=
  match mintPrice financed_mint with
  | none => .err .InvalidOracleSource
  | some (asset_price, decimals) =>
    match checkedMul usdc_amount 100 with
    | none => .err .MathOverflow
    | some usdc_value_8_decimals =>
      match checkedMul usdc_value_8_decimals (10 ^ decimals) with
      | none => .err .MathOverflow
      | some scaled =>
        let financed_amount_base := scaled / asset_price
        if ¬ vault_financed_balance ≥ financed_amount_base then
          .err .InsufficientVaultBalance
        else .ok financed_amount_base

/-- Mock DEX sale of an asset for USDC, u128 arithmetic with a final
truncating cast to u64 as in the source. -/
def mock_sell_asset_to_usdc (asset_mint asset_amount : Nat) :
    Result FinancingError Nat :=
  match mintPrice asset_mint with
  | none => .err .InvalidOracleSource
  | some (asset_price, decimals) =>
    if ¬ asset_amount * asset_price < U128 then .err .MathOverflow
    else
      let asset_value_8_decimals := asset_amount * asset_price / 10 ^ decimals
      .ok (asset_value_8_decimals / 100 % U64)

structure InitFinancingArgs where
  position_index : Nat
  collateral_amount : Nat
  collateral_usd_value : Nat
  financing_usdc_amount : Nat
  markup_bps : Nat
  initial_ltv : Nat
  max_ltv : Nat
  term_start : Int
  term_end : Int
  carry_enabled : Bool
  liquidation_threshold : Nat
  oracle_sources : List Nat
deriving DecidableEq

structure InitFinancingOutcome where
  state : FinancingState
  counter : UserPositionCounter
deriving DecidableEq

def MIN_COLLATERAL_USD : Nat := 100000000

def MIN_FINANCING_AMOUNT : Nat := 50000000

/-- Commit stage of initialize_financing: position-counter bookkeeping,
the mock swap, building the position record, the total-positions update
and the final negative-equity check, in source order. -/
def init_commit (counter : UserPositionCounter)
    (user collateral_mint financed_asset_mint vault_financed_balance : Nat)
    (args : InitFinancingArgs) (markup_amount deferred_payment : Nat) :
    Result FinancingError InitFinancingOutcome :=
  let counter1 :=
    if counter.open_positions = 0 then { counter with user := user }
    else counter
  if ¬ counter1.open_positions < MAX_POSITIONS then .err .TooManyPositions
  else match (if counter1.open_positions + 1 < U8 then
                some (counter1.open_positions + 1) else none) with
  | none => .err .MathOverflow
  | some opened =>
    let counter2 := { counter1 with open_positions := opened }
    match mock_swap_usdc_to_asset vault_financed_balance
        args.financing_usdc_amount financed_asset_mint with
    | .err e => .err e
    | .ok financed_amount =>
      let state : FinancingState :=
        { user_pubkey := user
          position_index := args.position_index
          collateral_mint := collateral_mint
          collateral_amount := args.collateral_amount
          collateral_usd_value := args.collateral_usd_value
          financed_mint := financed_asset_mint
          financed_amount := financed_amount
          financed_purchase_price_usdc := args.financing_usdc_amount
          financed_usd_value := args.financing_usdc_amount
          deferred_payment_amount := deferred_payment
          markup_fees := markup_amount
          initial_ltv := args.initial_ltv
          max_ltv := args.max_ltv
          liquidation_threshold := args.liquidation_threshold
          term_start := args.term_start
          term_end := args.term_end
          carry_enabled := args.carry_enabled
          oracle_sources := args.oracle_sources
          delegated_settlement_authority := 0
          delegated_liquidation_authority := 0
          position_status := .Active }
      match (if args.position_index ≥ counter2.total_positions then
               checkedAdd args.position_index 1
             else some counter2.total_positions) with
      | none => .err .MathOverflow
      | some totals =>
        let counter3 := { counter2 with total_positions := totals }
        if ¬ args.collateral_usd_value ≥ markup_amount then
          .err .NegativeEquity
        else .ok ⟨state, counter3⟩

/-- Second half of the validation stage of initialize_financing: the LTV
parameter checks, in source order, then the commit stage. -/
def init_validate_ltv (counter : UserPositionCounter)
    (user collateral_mint financed_asset_mint vault_financed_balance : Nat)
    (args : InitFinancingArgs) (markup_amount deferred_payment : Nat) :
    Result FinancingError InitFinancingOutcome :=
  if ¬ (args.max_ltv > 0 ∧ args.max_ltv ≤ 10000) then .err .InvalidLtv
  else if ¬ (args.liquidation_threshold > 0 ∧
             args.liquidation_threshold ≤ 10000) then .err .InvalidLtv
  else if ¬ args.initial_ltv ≤ args.max_ltv then .err .InvalidLtvOrdering
  else if ¬ args.max_ltv ≤ args.liquidation_threshold then
    .err .InvalidLtvOrdering
  else if ¬ args.max_ltv ≤ 8500 then .err .LtvTooHigh
  else if ¬ args.liquidation_threshold ≤ 9000 then .err .LtvTooHigh
  else if ¬ args.liquidation_threshold ≥ satAdd args.max_ltv 500 then
    .err .InsufficientLiquidationBuffer
  else init_commit counter user collateral_mint financed_asset_mint
    vault_financed_balance args markup_amount deferred_payment

/-- First half of the validation stage of initialize_financing: the input
checks between the markup computation and the LTV parameter checks, in
source order. -/
def init_validate (counter : UserPositionCounter)
    (user collateral_mint financed_asset_mint vault_financed_balance : Nat)
    (args : InitFinancingArgs) (markup_amount deferred_payment : Nat) :
    Result FinancingError InitFinancingOutcome :=
  if ¬ args.collateral_amount > 0 then .err .ZeroCollateral
  else if ¬ args.collateral_usd_value ≥ MIN_COLLATERAL_USD then
    .err .PositionTooSmall
  else if ¬ args.financing_usdc_amount ≥ MIN_FINANCING_AMOUNT then
    .err .PositionTooSmall
  else if ¬ args.term_end > args.term_start then .err .InvalidTerm
  else if args.oracle_sources.isEmpty then .err .NoOracleSources
  else if ¬ args.oracle_sources.length ≤ 3 then .err .TooManyOracleSources
  else if args.oracle_sources.any (fun o => o = 0) then
    .err .InvalidOracleSource
  else if ¬ (args.initial_ltv > 0 ∧ args.initial_ltv ≤ 10000) then
    .err .InvalidLtv
  else init_validate_ltv counter user collateral_mint financed_asset_mint
    vault_financed_balance args markup_amount deferred_payment

/-- Origination.  The circuit-breaker check and the markup and deferred
payment computations come first, then validation and commit. -/
def initialize_financing (config : ProtocolConfig)
    (counter : UserPositionCounter)
    (user collateral_mint financed_asset_mint vault_financed_balance : Nat)
    (args : InitFinancingArgs) :
    Result FinancingError InitFinancingOutcome :=
  if config.protocol_paused then .err .ProtocolPaused
  else match checkedMul args.financing_usdc_amount args.markup_bps with
  | none => .err .MathOverflow
  | some m =>
    let markup_amount := m / 10000
    match checkedAdd args.financing_usdc_amount markup_amount with
    | none => .err .MathOverflow
    | some deferred_payment =>
      init_validate counter user collateral_mint financed_asset_mint
        vault_financed_balance args markup_amount deferred_payment

def update_ltv (config : ProtocolConfig) (state : FinancingState)
    (authority collateral_usd_value : Nat) :
    Result FinancingError FinancingState :=
  if ¬ (authority = config.admin_authority ∨
        state.oracle_sources.contains authority) then .err .Unauthorized
  else if ¬ collateral_usd_value > 0 then .err .ZeroCollateral
  else if ¬ collateral_usd_value < U64MAX / 10000 then .err .MathOverflow
  else
    let state1 := { state with collateral_usd_value := collateral_usd_value }
    match compute_ltv state1.deferred_payment_amount collateral_usd_value with
    | .err e => .err e
    | .ok ltv =>
      if ¬ ltv ≤ state1.max_ltv then .err .LtvBreach
      else .ok state1

structure LiquidateOutcome where
  state : FinancingState
  counter : UserPositionCounter
  debt_to_repay : Nat
  collateral_to_seize : Nat
deriving DecidableEq

/-- Permissionless (tier 1) liquidation.  The position counter account is
included in the instruction but the handler never writes to it; the model
returns it so theorems can observe that it is unchanged. -/
def liquidate (config : ProtocolConfig) (state : FinancingState)
    (counter : UserPositionCounter) (liquidation_percentage : Nat) :
    Result FinancingError LiquidateOutcome :=
  if config.protocol_paused then .err .ProtocolPaused
  else match compute_ltv state.deferred_payment_amount
      state.collateral_usd_value with
  | .err e => .err e
  | .ok current_ltv =>
    if ¬ current_ltv ≥ PERMISSIONLESS_LIQ_THRESHOLD then .err .PositionHealthy
    else if ¬ current_ltv < PROTOCOL_LIQ_THRESHOLD then
      .err .UseProtocolLiquidation
    else if ¬ (liquidation_percentage > 0 ∧
               liquidation_percentage ≤ MAX_EXTERNAL_LIQ_PERCENTAGE) then
      .err .ExcessiveLiquidationPercentage
    else match checkedMul state.deferred_payment_amount
        liquidation_percentage with
    | none => .err .MathOverflow
    | some d =>
      let debt_to_repay := d / 100
      match checkedMul debt_to_repay EXTERNAL_LIQUIDATOR_BONUS_BPS with
      | none => .err .MathOverflow
      | some b =>
        let liquidator_bonus := b / 10000
        match checkedAdd debt_to_repay liquidator_bonus with
        | none => .err .MathOverflow
        | some total_claim =>
          match checkedMul total_claim 100000000 with
          | none => .err .MathOverflow
          | some c1 =>
            match checkedMul c1 state.collateral_amount with
            | none => .err .MathOverflow
            | some c2 =>
              if state.collateral_usd_value = 0 then .err .MathOverflow
              else
                let collateral_to_seize :=
                  c2 / state.collateral_usd_value / 100
                match checkedSub state.deferred_payment_amount
                    debt_to_repay with
                | none => .err .MathOverflow
                | some new_deferred =>
                  match checkedSub state.collateral_amount
                      collateral_to_seize with
                  | none => .err .MathOverflow
                  | some new_collateral =>
                    match checkedMul state.collateral_usd_value
                        new_collateral with
                    | none => .err .MathOverflow
                    | some u1 =>
                      match checkedAdd new_collateral collateral_to_seize with
                      | none => .err .MathOverflow
                      | some denom =>
                        if denom = 0 then .err .MathOverflow
                        else
                          .ok ⟨{ state with
                                 deferred_payment_amount := new_deferred,
                                 collateral_amount := new_collateral,
                                 collateral_usd_value := u1 / denom },
                               counter, debt_to_repay, collateral_to_seize⟩

structure ForceLiquidateOutcome where
  state : FinancingState
  counter : UserPositionCounter
  collateral_to_sell : Nat
  collateral_proceeds : Nat
  remaining_collateral : Nat
deriving DecidableEq

/-- Protocol-forced (tier 2) liquidation. -/
def force_liquidate_protocol (config : ProtocolConfig)
    (state : FinancingState) (counter : UserPositionCounter)
    (authority : Nat) :
    Result FinancingError ForceLiquidateOutcome :=
  if config.protocol_paused then .err .ProtocolPaused
  else if ¬ authority = config.admin_authority then .err .Unauthorized
  else match compute_ltv state.deferred_payment_amount
      state.collateral_usd_value with
  | .err e => .err e
  | .ok current_ltv =>
    if ¬ current_ltv ≥ PROTOCOL_LIQ_THRESHOLD then
      .err .NotAtProtocolThreshold
    else
      let total_debt := state.deferred_payment_amount
      match checkedMul total_debt FORCED_LIQ_FEE_BPS with
      | none => .err .MathOverflow
      | some f =>
        let collateral_liq_fee := f / 10000
        match checkedAdd total_debt collateral_liq_fee with
        | none => .err .MathOverflow
        | some total_needed =>
          if ¬ total_needed * 100000000 < U128 then .err .MathOverflow
          else if ¬ total_needed * 100000000 * state.collateral_amount
              < U128 then .err .MathOverflow
          else if state.collateral_usd_value = 0 then .err .MathOverflow
          else
            let collateral_to_sell :=
              total_needed * 100000000 * state.collateral_amount /
                state.collateral_usd_value / 100000000 % U64
            match mock_sell_asset_to_usdc state.collateral_mint
                collateral_to_sell with
            | .err e => .err e
            | .ok collateral_proceeds =>
              match checkedSub state.collateral_amount collateral_to_sell with
              | none => .err .MathOverflow
              | some remaining_collateral =>
                match (if 1 ≤ counter.open_positions then
                         some (counter.open_positions - 1) else none) with
                | none => .err .MathOverflow
                | some opened =>
                  .ok ⟨{ state with position_status := .Liquidated },
                       { counter with open_positions := opened },
                       collateral_to_sell, collateral_proceeds,
                       remaining_collateral⟩

/-! ## Concrete states used by counterexamples and witnesses -/

/-- Protocol config with admin 3, not paused. -/
def finCfg : ProtocolConfig := ⟨3, false⟩

/-- Protocol config with admin 3, circuit breaker engaged. -/
def finCfgPaused : ProtocolConfig := ⟨3, true⟩

/-- A position counter with three open positions. -/
def counterThree : UserPositionCounter := ⟨9, 3, 7⟩

/-- A fresh position counter. -/
def counterZero : UserPositionCounter := ⟨0, 0, 0⟩

/-- An active position whose LTV is 7400 bps, inside the permissionless
liquidation band. -/
def posPermissionless : FinancingState :=
  { user_pubkey := 9, position_index := 0, collateral_mint := SOL_MINT,
    collateral_amount := 5, collateral_usd_value := 100,
    financed_mint := XNT_MINT, financed_amount := 0,
    financed_purchase_price_usdc := 0, financed_usd_value := 0,
    deferred_payment_amount := 74, markup_fees := 0,
    initial_ltv := 1000, max_ltv := 8000, liquidation_threshold := 8500,
    term_start := 0, term_end := 1, carry_enabled := false,
    oracle_sources := [5], delegated_settlement_authority := 0,
    delegated_liquidation_authority := 0, position_status := .Active }

/-- An active position whose LTV is 7500 bps, at the protocol-forced
liquidation threshold. -/
def posForced : FinancingState :=
  { posPermissionless with deferred_payment_amount := 75,
                           collateral_amount := 100 }

/-- A pool holding the invariant with equality: balance 100, locked 100. -/
def vaultTight : LPVaultState := ⟨10, 100, 100, 0, 7, false⟩

/-- The pool produced by writing off 50 of bad debt against vaultTight with
financing amount 0: balance 50 now sits below the locked 100. -/
def vaultAfterWriteOff : LPVaultState := ⟨10, 50, 100, 20000, 7, false⟩

/-- A liquidation record with a live snapshot, delegate 2, not executed. -/
def liqAuthFrozen : LiquidationAuthority := ⟨1, 2, 5, 100, false, 0, 0⟩

/-- The same record after a successful execution. -/
def liqAuthExecuted : LiquidationAuthority := ⟨1, 2, 5, 100, true, 0, 0⟩

/-- A pool with one thousand shares backing one million units. -/
def poolDemo : LPVaultState := ⟨1000, 1000000, 0, 0, 7, false⟩

/-- A position whose deferred payment makes the LTV numerator overflow a
u64: deferred payment 2 to the 63, so deferred times 10000 exceeds u64. -/
def posOverflowLtv : FinancingState :=
  { posPermissionless with deferred_payment_amount := 2 ^ 63 }

/-- A position with deferred payment 95: at collateral value 100 the
recomputed LTV is 9500 bps, beyond both maxLtv 8000 and the liquidation
threshold 8500. -/
def posHighLtv : FinancingState :=
  { posPermissionless with deferred_payment_amount := 95 }

/-- Origination arguments whose markup multiplication overflows u64:
financing amount and markup both 2 to the 40. -/
def argsMarkupOverflow : InitFinancingArgs :=
  { position_index := 0, collateral_amount := 1,
    collateral_usd_value := 100000000,
    financing_usdc_amount := 2 ^ 40, markup_bps := 2 ^ 40,
    initial_ltv := 1000, max_ltv := 8000, term_start := 0, term_end := 1,
    carry_enabled := false, liquidation_threshold := 8500,
    oracle_sources := [5] }

/-- Origination arguments whose collateral USD value exactly equals the
markup amount: financing 100000000 at 10000 bps markup gives markup
100000000, equal to the collateral USD value. -/
def argsEqualEquity : InitFinancingArgs :=
  { position_index := 0, collateral_amount := 1,
    collateral_usd_value := 100000000,
    financing_usdc_amount := 100000000, markup_bps := 10000,
    initial_ltv := 1000, max_ltv := 8000, term_start := 0, term_end := 1,
    carry_enabled := false, liquidation_threshold := 8500,
    oracle_sources := [5] }

/-- The position produced by originating argsEqualEquity. -/
def stateEqualEquity : FinancingState :=
  { user_pubkey := 9, position_index := 0, collateral_mint := 7,
    collateral_amount := 1, collateral_usd_value := 100000000,
    financed_mint := XNT_MINT, financed_amount := 100000000000,
    financed_purchase_price_usdc := 100000000,
    financed_usd_value := 100000000,
    deferred_payment_amount := 200000000, markup_fees := 100000000,
    initial_ltv := 1000, max_ltv := 8000, liquidation_threshold := 8500,
    term_start := 0, term_end := 1, carry_enabled := false,
    oracle_sources := [5], delegated_settlement_authority := 0,
    delegated_liquidation_authority := 0, position_status := .Active }

/-- The origination outcome for argsEqualEquity. -/
def outEqualEquity : InitFinancingOutcome := ⟨stateEqualEquity, ⟨9, 1, 1⟩⟩

/-- A liquidation record in the idle state: no delegate registered, no
snapshot frozen, never executed. -/
def liqAuthIdle : LiquidationAuthority := ⟨1, 0, 0, 0, false, 0, 0⟩

/-- A paused pool with one share backing one unit and nothing locked. -/
def pausedUnitVault : LPVaultState := ⟨1, 1, 0, 0, 7, true⟩

/-! ## Helper lemmas on checked arithmetic -/

lemma checkedMul_eq_some {a b n : Nat} (h : checkedMul a b = some n) :
    n = a * b ∧ a * b < U64 := by
  unfold checkedMul at h
  split at h
  · injection h with h1
    exact ⟨h1.symm, by assumption⟩
  · exact Option.noConfusion h

lemma checkedAdd_eq_some {a b n : Nat} (h : checkedAdd a b = some n) :
    n = a + b ∧ a + b < U64 := by
  unfold checkedAdd at h
  split at h
  · injection h with h1
    exact ⟨h1.symm, by assumption⟩
  · exact Option.noConfusion h

lemma checkedSub_eq_some {a b n : Nat} (h : checkedSub a b = some n) :
    n = a - b ∧ b ≤ a := by
  unfold checkedSub at h
  split at h
  · injection h with h1
    exact ⟨h1.symm, by assumption⟩
  · exact Option.noConfusion h

lemma U64MAX_eq : U64MAX = U64 - 1 := rfl

lemma update_utilization_locked (s : LPVaultState) :
    s.update_utilization.locked_for_financing = s.locked_for_financing := rfl

lemma update_utilization_balance (s : LPVaultState) :
    s.update_utilization.vault_usdc_balance = s.vault_usdc_balance := rfl

lemma update_utilization_shares (s : LPVaultState) :
    s.update_utilization.total_shares = s.total_shares := rfl

/-! ## Claim C1 -/

/-- Claim C1 (code bug witness): a successful permissionless liquidation
leaves the open-position counter untouched, returning the counter with the
original value 3, while a successful protocol-forced liquidation decrements
it from 3 to 2; with the circuit breaker engaged both paths fail with the
paused error.  The spec (and the instruction account list of liquidate,
whose position counter account is annotated as being there for the
decrement) says both paths decrement, so the permissionless handler
omitting the decrement is a slip in the code. -/
theorem c1_liquidate_skips_counter_decrement :
    liquidate finCfg posPermissionless counterThree 1 =
      .ok ⟨posPermissionless, counterThree, 0, 0⟩ ∧
    counterThree.open_positions = 3 ∧
    force_liquidate_protocol finCfg posForced counterThree 3 =
      .ok ⟨{ posForced with position_status := .Liquidated },
           { counterThree with open_positions := 2 }, 78, 11, 22⟩ ∧
    liquidate finCfgPaused posPermissionless counterThree 1 =
      .err .ProtocolPaused ∧
    force_liquidate_protocol finCfgPaused posForced counterThree 3 =
      .err .ProtocolPaused := by
  refine ⟨by decide, rfl, by decide, by decide, by decide⟩

/-! ## Claim C2 -/

/-- Claim C2 counterexample: write_off_bad_debt called by the authority
with financing_amount 0 and bad_debt 50 succeeds on a pool satisfying
balance at least lockedForFinancing and returns a pool violating it. -/
theorem c2_write_off_breaks_pool_invariant :
    vaultTight.locked_for_financing ≤ vaultTight.vault_usdc_balance ∧
    write_off_bad_debt vaultTight 7 0 50 = .ok vaultAfterWriteOff ∧
    vaultAfterWriteOff.vault_usdc_balance <
      vaultAfterWriteOff.locked_for_financing := by
  refine ⟨by decide, by decide, by decide⟩

/-- Claim C2 (amended): deposit_usdc, withdraw_usdc, allocate_financing and
release_financing preserve the invariant balance at least
lockedForFinancing unconditionally on well-formed pools, and
write_off_bad_debt preserves it provided the written-off bad debt does not
exceed the amount it unlocks, min financing_amount lockedForFinancing;
beyond that bound it can succeed and break the invariant. -/
theorem c2_pool_invariant_preserved (s : LPVaultState) (hwf : s.wf)
    (hinv : s.locked_for_financing ≤ s.vault_usdc_balance) :
    (∀ amount out, deposit_usdc s amount = .ok out →
      out.vault.locked_for_financing ≤ out.vault.vault_usdc_balance) ∧
    (∀ shares out, withdraw_usdc s shares = .ok out →
      out.vault.locked_for_financing ≤ out.vault.vault_usdc_balance) ∧
    (∀ amount s1, allocate_financing s amount = .ok s1 →
      s1.locked_for_financing ≤ s1.vault_usdc_balance) ∧
    (∀ amount s1, release_financing s amount = .ok s1 →
      s1.locked_for_financing ≤ s1.vault_usdc_balance) ∧
    (∀ caller fa bd s1,
      bd ≤ min fa s.locked_for_financing →
      write_off_bad_debt s caller fa bd = .ok s1 →
      s1.locked_for_financing ≤ s1.vault_usdc_balance) := by
  obtain ⟨hts, hbal, hlock⟩ := hwf
  have hlockMax : s.locked_for_financing ≤ U64MAX := by
    rw [U64MAX_eq]; exact Nat.le_sub_one_of_lt hlock
  refine ⟨?_, ?_, ?_, ?_, ?_⟩
  · intro amount out h
    unfold deposit_usdc at h
    try dsimp only at h
    repeat' (first | exact Result.noConfusion h | split at h)
    all_goals
      injection h with h1
    all_goals
      subst h1
    all_goals
      simp only [update_utilization_locked, update_utilization_balance, satAdd]
    all_goals
      exact le_min (le_trans hinv (Nat.le_add_right _ _)) hlockMax
  · intro shares out h
    unfold withdraw_usdc at h
    try dsimp only at h
    repeat' (first | exact Result.noConfusion h | split at h)
    all_goals
      injection h with h1
    all_goals
      subst h1
    all_goals
      simp only [update_utilization_locked, update_utilization_balance]
    all_goals
      simp only [not_not, not_le] at *
    all_goals
      omega
  · intro amount s1 h
    unfold allocate_financing at h
    try dsimp only at h
    repeat' (first | exact Result.noConfusion h | split at h)
    all_goals
      injection h with h1
    all_goals
      subst h1
    all_goals
      simp only [update_utilization_locked, update_utilization_balance,
        ge_iff_le, not_not] at *
    all_goals
      assumption
  · intro amount s1 h
    unfold release_financing at h
    try dsimp only at h
    injection h with h1
    subst h1
    simp only [update_utilization_locked, update_utilization_balance, satAdd]
    try dsimp only
    refine le_min ?_ ?_
    · exact le_trans (Nat.sub_le _ _) (le_trans hinv (Nat.le_add_right _ _))
    · exact le_trans (Nat.sub_le _ _) hlockMax
  · intro caller fa bd s1 hbd h
    unfold write_off_bad_debt at h
    try dsimp only at h
    repeat' (first | exact Result.noConfusion h | split at h)
    all_goals
      injection h with h1
    all_goals
      subst h1
    all_goals
      simp only [update_utilization_locked, update_utilization_balance]
    all_goals
      have hminle : min fa s.locked_for_financing ≤ s.locked_for_financing :=
        Nat.min_le_right _ _
    all_goals
      omega

/-- Claim C2 witness: the amended preservation theorem applied to a
concrete pool, deposit of 10 into a pool with balance 100, locked 60,
which mints one share and leaves balance 110 above the locked 60. -/
theorem c2_pool_invariant_preserved_witness :
    (⟨⟨11, 110, 60, 5454, 7, false⟩, 1⟩ :
        DepositOutcome).vault.locked_for_financing ≤
      (⟨⟨11, 110, 60, 5454, 7, false⟩, 1⟩ :
        DepositOutcome).vault.vault_usdc_balance :=
  (c2_pool_invariant_preserved ⟨10, 100, 60, 0, 7, false⟩
    (by decide) (by decide)).1 10 ⟨⟨11, 110, 60, 5454, 7, false⟩, 1⟩
    (by decide)

/-! ## Claim C3 -/

/-- Claim C3 counterexample: after a successful execute_liquidation has
marked executed = true, a second execute_liquidation call on the very same
record, with no intervening distribute_liquidation_proceeds, succeeds
again: the handler performs no re-entry check on the executed flag. -/
theorem c3_second_execute_succeeds :
    execute_liquidation liqAuthFrozen 2 9000 8500 100 = .ok liqAuthExecuted ∧
    liqAuthExecuted.executed = true ∧
    execute_liquidation liqAuthExecuted 2 9000 8500 100 =
      .ok liqAuthExecuted := by
  exact ⟨by decide, rfl, by decide⟩

/-- Claim C3 (amended): a successful execute_liquidation marks
executed = true, which makes the caller-layer guard can_liquidate (the
re-entry check used by check_liquidation_trigger) return false until
distribute_liquidation_proceeds resets executed to false together with the
frozen snapshot fields; execute_liquidation itself performs no re-entry
check on the flag, so a direct second executor-layer call can succeed. -/
theorem c3_executed_gates_caller_layer_until_distribute
    (a : LiquidationAuthority) (dl ltv th sl : Nat)
    (a1 : LiquidationAuthority)
    (h : execute_liquidation a dl ltv th sl = .ok a1) :
    a1.executed = true ∧ a1.can_liquidate = false ∧
    (∀ tp a2, distribute_liquidation_proceeds a1 tp = .ok a2 →
      a2.executed = false ∧ a2.frozen_snapshot_slot = 0 ∧
      a2.frozen_price = 0) := by
  unfold execute_liquidation at h
  repeat' (first | exact Result.noConfusion h | split at h)
  injection h with h1
  subst h1
  refine ⟨rfl, ?_, ?_⟩
  · simp [LiquidationAuthority.can_liquidate]
  · intro tp a2 h2
    unfold distribute_liquidation_proceeds at h2
    try dsimp only at h2
    repeat' (first | exact Result.noConfusion h2 | split at h2)
    injection h2 with h3
    subst h3
    exact ⟨rfl, rfl, rfl⟩

/-- Claim C3 witness: the amended theorem applied to the concrete record
with delegate 2, snapshot slot 5, liquidation threshold 8500, followed by
a distribution of 100 that resets the record. -/
theorem c3_executed_gates_caller_layer_until_distribute_witness :
    liqAuthExecuted.executed = true ∧
    liqAuthExecuted.can_liquidate = false ∧
    (⟨1, 2, 0, 0, false, 3, 97⟩ : LiquidationAuthority).executed = false ∧
    (⟨1, 2, 0, 0, false, 3, 97⟩ :
      LiquidationAuthority).frozen_snapshot_slot = 0 ∧
    (⟨1, 2, 0, 0, false, 3, 97⟩ : LiquidationAuthority).frozen_price = 0 := by
  have h := c3_executed_gates_caller_layer_until_distribute liqAuthFrozen 2
    9000 8500 100 liqAuthExecuted (by decide)
  exact ⟨h.1, h.2.1, h.2.2 100 ⟨1, 2, 0, 0, false, 3, 97⟩ (by decide)⟩

/-! ## Claim C4 -/

/-- Claim C4: freezing fails with the double-liquidation error whenever an
existing snapshot, frozen_snapshot_slot positive, is younger than the
100-slot expiry window (age measured by saturating subtraction), and
succeeds, overwriting the stored slot and price with the current ones,
whenever no snapshot exists or the age is at least the window. -/
theorem c4_freeze_snapshot_expiry (a : LiquidationAuthority)
    (clock_slot price : Nat) :
    (a.frozen_snapshot_slot > 0 →
      clock_slot - a.frozen_snapshot_slot < MAX_SNAPSHOT_AGE_SLOTS →
      freeze_oracle_snapshot a clock_slot price = .err .DoubleLiquidation) ∧
    (a.frozen_snapshot_slot = 0 →
      freeze_oracle_snapshot a clock_slot price =
        .ok { a with frozen_snapshot_slot := clock_slot,
                     frozen_price := price }) ∧
    (clock_slot - a.frozen_snapshot_slot ≥ MAX_SNAPSHOT_AGE_SLOTS →
      freeze_oracle_snapshot a clock_slot price =
        .ok { a with frozen_snapshot_slot := clock_slot,
                     frozen_price := price }) := by
  unfold freeze_oracle_snapshot
  refine ⟨?_, ?_, ?_⟩
  · intro h1 h2
    rw [if_pos ⟨h1, by omega⟩]
  · intro h1
    rw [if_neg (by omega)]
  · intro h1
    rw [if_neg (by omega)]

/-- Claim C4 witness: on the concrete record frozen at slot 5, freezing at
slot 6 fails with the double-liquidation error and freezing at slot 105,
age exactly the expiry window, succeeds and overwrites slot and price. -/
theorem c4_freeze_snapshot_expiry_witness :
    freeze_oracle_snapshot liqAuthFrozen 6 42 = .err .DoubleLiquidation ∧
    freeze_oracle_snapshot liqAuthFrozen 105 42 =
      .ok { liqAuthFrozen with frozen_snapshot_slot := 105,
                               frozen_price := 42 } :=
  ⟨(c4_freeze_snapshot_expiry liqAuthFrozen 6 42).1 (by decide) (by decide),
   (c4_freeze_snapshot_expiry liqAuthFrozen 105 42).2.2 (by decide)⟩

/-! ## Claim C5 -/

lemma update_utilization_share_price (s : LPVaultState) :
    s.update_utilization.share_price = s.share_price := rfl

lemma redeem_amount_ok {s : LPVaultState} {shares n : Nat}
    (h : s.redeem_amount shares = .ok n) :
    n = s.vault_usdc_balance * shares / s.total_shares ∧
      0 < s.total_shares := by
  unfold LPVaultState.redeem_amount at h
  split at h
  · exact Result.noConfusion h
  try dsimp only at h
  split at h
  · injection h with h1
    exact ⟨h1.symm, by omega⟩
  · exact Result.noConfusion h

lemma redeem_amount_eq (s : LPVaultState) (shares : Nat)
    (ht : 0 < s.total_shares) (hs : shares ≤ s.total_shares)
    (hb : s.vault_usdc_balance < U64) :
    s.redeem_amount shares =
      .ok (s.vault_usdc_balance * shares / s.total_shares) := by
  unfold LPVaultState.redeem_amount
  rw [if_neg (by omega)]
  have hle : s.vault_usdc_balance * shares / s.total_shares ≤
      s.vault_usdc_balance := by
    calc s.vault_usdc_balance * shares / s.total_shares
        ≤ s.vault_usdc_balance * s.total_shares / s.total_shares :=
          Nat.div_le_div_right (Nat.mul_le_mul_left _ hs)
      _ = s.vault_usdc_balance := Nat.mul_div_cancel _ ht
  try dsimp only
  rw [if_pos (lt_of_le_of_lt hle hb)]

/-- Claim C5: on a pool whose balance is a representable u64, a successful
withdraw_usdc returns exactly balance times shares divided by totalShares
(integer division, exact in the 128-bit intermediate), with shares within
totalShares, the amount within the available balance, balance minus
lockedForFinancing, and a positive resulting share price; it fails when
shares exceed totalShares and when the redeem amount exceeds the available
balance; and no value is created: for all shares within totalShares the
redeem amount times totalShares is at most balance times shares. -/
theorem c5_withdraw_exact_amount (s : LPVaultState) (shares : Nat)
    (hb : s.vault_usdc_balance < U64) :
    (∀ out, withdraw_usdc s shares = .ok out →
      out.amount = s.vault_usdc_balance * shares / s.total_shares ∧
      shares ≤ s.total_shares ∧
      out.amount ≤ s.vault_usdc_balance - s.locked_for_financing ∧
      out.vault.share_price > 0) ∧
    (shares > s.total_shares → (withdraw_usdc s shares).isOk = false) ∧
    (s.vault_usdc_balance * shares / s.total_shares >
        s.vault_usdc_balance - s.locked_for_financing →
      (withdraw_usdc s shares).isOk = false) ∧
    (0 < s.total_shares → shares ≤ s.total_shares →
      s.redeem_amount shares =
        .ok (s.vault_usdc_balance * shares / s.total_shares) ∧
      s.vault_usdc_balance * shares / s.total_shares * s.total_shares ≤
        s.vault_usdc_balance * shares) := by
  refine ⟨?_, ?_, ?_, ?_⟩
  · intro out h
    unfold withdraw_usdc at h
    split at h
    · exact Result.noConfusion h
    split at h
    · exact Result.noConfusion h
    split at h
    · exact Result.noConfusion h
    split at h
    · exact Result.noConfusion h
    next amount heq =>
      try dsimp only at h
      split at h
      · exact Result.noConfusion h
      split at h
      · exact Result.noConfusion h
      injection h with h1
      subst h1
      obtain ⟨h2, ht⟩ := redeem_amount_ok heq
      subst h2
      refine ⟨rfl, by omega, ?_, ?_⟩
      · try dsimp only
        omega
      · simp only [update_utilization_share_price]
        try dsimp only
        simp only [not_not, not_lt, gt_iff_lt] at *
        omega
  · intro hgt
    unfold withdraw_usdc
    repeat' (first | rfl | split)
    all_goals omega
  · intro hgt
    unfold withdraw_usdc
    split
    · rfl
    split
    · rfl
    split
    · rfl
    split
    · rfl
    next amount heq =>
      try dsimp only
      split
      · rfl
      split
      · rfl
      obtain ⟨h2, ht⟩ := redeem_amount_ok heq
      subst h2
      omega
  · intro ht hs
    exact ⟨redeem_amount_eq s shares ht hs hb,
      Nat.div_mul_le_self _ _⟩

/-- Claim C5 witness: on the concrete pool, redeeming 500 of the 1000
shares is worth exactly 500000 and withdrawing 1001 shares fails. -/
theorem c5_withdraw_exact_amount_witness :
    poolDemo.redeem_amount 500 = .ok 500000 ∧
    (withdraw_usdc poolDemo 1001).isOk = false := by
  refine ⟨?_, ?_⟩
  · exact ((c5_withdraw_exact_amount poolDemo 500
      (by decide)).2.2.2 (by decide) (by decide)).1
  · exact (c5_withdraw_exact_amount poolDemo 1001
      (by decide)).2.1 (by decide)

/-! ## Claim C6 -/

lemma compute_ltv_eq (o v : Nat) (hv : 0 < v) (hm : o * 10000 < U64) :
    compute_ltv o v = .ok (o * 10000 / v) := by
  unfold compute_ltv
  rw [if_neg (not_not_intro hv)]
  simp only [checkedMul, if_pos hm]

lemma compute_ltv_ok {o v n : Nat} (h : compute_ltv o v = .ok n) :
    n = o * 10000 / v ∧ 0 < v ∧ o * 10000 < U64 := by
  unfold compute_ltv at h
  split at h
  · exact Result.noConfusion h
  split at h
  · exact Result.noConfusion h
  next m hm =>
    injection h with h1
    obtain ⟨rfl, hlt⟩ := checkedMul_eq_some hm
    exact ⟨h1.symm, by omega, hlt⟩

/-- Claim C6 counterexample: the caller is the admin and the new
collateral value 100000000 is positive and inside the required range, the
mathematical LTV, deferred times 10000 over the new value, vastly exceeds
maxLtv, yet update_ltv fails with the math-overflow error rather than the
LTV-breach error, because deferred times 10000 does not fit in a u64. -/
theorem c6_overflow_error_masks_ltv_breach :
    posOverflowLtv.max_ltv <
      posOverflowLtv.deferred_payment_amount * 10000 / 100000000 ∧
    posOverflowLtv.liquidation_threshold ≤
      posOverflowLtv.deferred_payment_amount * 10000 / 100000000 ∧
    update_ltv finCfg posOverflowLtv 3 100000000 = .err .MathOverflow := by
  exact ⟨by decide, by decide, by decide⟩

/-- Claim C6 (amended): update_ltv succeeds only when the caller is the
admin or an allow-listed price source and the new collateral value is
strictly positive and strictly below u64 maximum over 10000; whenever the
numerator deferredPayment times 10000 fits in a u64 and the recomputed LTV
exceeds maxLtv, the call fails with the LTV-breach error, with no separate
liquidation-threshold exemption; when the numerator overflows a u64 the
call instead fails with a math-overflow error; on success the recomputed
LTV is within maxLtv and only the collateral value field changes. -/
theorem c6_update_ltv_authorization_and_breach (config : ProtocolConfig)
    (st : FinancingState) (authority v : Nat) :
    ((update_ltv config st authority v).isOk = true →
      (authority = config.admin_authority ∨
        st.oracle_sources.contains authority) ∧
      0 < v ∧ v < U64MAX / 10000) ∧
    ((authority = config.admin_authority ∨
        st.oracle_sources.contains authority) →
      0 < v → v < U64MAX / 10000 →
      st.deferred_payment_amount * 10000 < U64 →
      st.max_ltv < st.deferred_payment_amount * 10000 / v →
      update_ltv config st authority v = .err .LtvBreach) ∧
    (∀ st1, update_ltv config st authority v = .ok st1 →
      st1 = { st with collateral_usd_value := v } ∧
      st.deferred_payment_amount * 10000 / v ≤ st.max_ltv) := by
  refine ⟨?_, ?_, ?_⟩
  · intro h
    unfold update_ltv at h
    split at h
    · exact absurd h (by simp [Result.isOk])
    split at h
    · exact absurd h (by simp [Result.isOk])
    split at h
    · exact absurd h (by simp [Result.isOk])
    exact ⟨not_not.mp (by assumption), by omega, by omega⟩
  · intro hA hv hvmax hmul hgt
    unfold update_ltv
    rw [if_neg (not_not_intro hA), if_neg (not_not_intro hv),
      if_neg (not_not_intro hvmax)]
    try dsimp only
    rw [compute_ltv_eq _ _ hv hmul]
    try dsimp only
    rw [if_pos (by omega)]
  · intro st1 h
    unfold update_ltv at h
    split at h
    · exact Result.noConfusion h
    split at h
    · exact Result.noConfusion h
    split at h
    · exact Result.noConfusion h
    try dsimp only at h
    split at h
    · exact Result.noConfusion h
    next ltv heq =>
      split at h
      · exact Result.noConfusion h
      injection h with h1
      subst h1
      obtain ⟨rfl, hv, hmul⟩ := compute_ltv_ok heq
      exact ⟨rfl, by omega⟩

/-- Claim C6 witness: the amended theorem applied to the admin updating
the collateral value to 100, making the LTV 9500, at or above the
liquidation threshold, which fails with the LTV-breach error. -/
theorem c6_update_ltv_authorization_and_breach_witness :
    update_ltv finCfg posHighLtv 3 100 = .err .LtvBreach :=
  (c6_update_ltv_authorization_and_breach finCfg posHighLtv 3 100).2.1
    (Or.inl rfl) (by decide) (by decide) (by decide) (by decide)

/-! ## Claim C7 -/

set_option maxRecDepth 8000 in
lemma init_validate_ltv_ok {counter : UserPositionCounter}
    {user cm fm vb : Nat} {args : InitFinancingArgs} {ma dp : Nat}
    {out : InitFinancingOutcome}
    (h : init_validate_ltv counter user cm fm vb args ma dp = .ok out) :
    init_commit counter user cm fm vb args ma dp = .ok out := by
  unfold init_validate_ltv at h
  repeat' (first | exact Result.noConfusion h | split at h)
  exact h

set_option maxRecDepth 8000 in
lemma init_validate_ok {counter : UserPositionCounter}
    {user cm fm vb : Nat} {args : InitFinancingArgs} {ma dp : Nat}
    {out : InitFinancingOutcome}
    (h : init_validate counter user cm fm vb args ma dp = .ok out) :
    init_commit counter user cm fm vb args ma dp = .ok out := by
  unfold init_validate at h
  repeat' (first | exact Result.noConfusion h | split at h)
  exact init_validate_ltv_ok h

set_option maxRecDepth 8000 in
lemma init_commit_ok {counter : UserPositionCounter}
    {user cm fm vb : Nat} {args : InitFinancingArgs} {ma dp : Nat}
    {out : InitFinancingOutcome}
    (h : init_commit counter user cm fm vb args ma dp = .ok out) :
    out.state.markup_fees = ma ∧
    out.state.deferred_payment_amount = dp ∧
    out.state.collateral_usd_value = args.collateral_usd_value ∧
    ma ≤ args.collateral_usd_value := by
  unfold init_commit at h
  try dsimp only at h
  repeat' (first | exact Result.noConfusion h | split at h)
  all_goals injection h with h1
  all_goals subst h1
  all_goals refine ⟨rfl, rfl, rfl, by omega⟩

/-- Claim C7: initialize_financing computes markupAmount as
financingAmount times markupBps over 10000 and deferredPayment as
financingAmount plus markupAmount, stores both in the position on success,
and fails the whole operation, never wrapping, whenever either the
multiplication or the addition overflows a u64. -/
theorem c7_markup_deferred_checked (config : ProtocolConfig)
    (counter : UserPositionCounter)
    (user cmint fmint vbal : Nat) (args : InitFinancingArgs) :
    (∀ out, initialize_financing config counter user cmint fmint vbal args
        = .ok out →
      out.state.markup_fees =
        args.financing_usdc_amount * args.markup_bps / 10000 ∧
      out.state.deferred_payment_amount =
        args.financing_usdc_amount +
          args.financing_usdc_amount * args.markup_bps / 10000) ∧
    (¬ args.financing_usdc_amount * args.markup_bps < U64 →
      (initialize_financing config counter user cmint fmint vbal
        args).isOk = false) ∧
    (args.financing_usdc_amount +
        args.financing_usdc_amount * args.markup_bps / 10000 ≥ U64 →
      (initialize_financing config counter user cmint fmint vbal
        args).isOk = false) := by
  refine ⟨?_, ?_, ?_⟩
  · intro out h
    unfold initialize_financing at h
    split at h
    · exact Result.noConfusion h
    split at h
    · exact Result.noConfusion h
    next m hm =>
      try dsimp only at h
      split at h
      · exact Result.noConfusion h
      next dp hdp =>
        obtain ⟨rfl, hmlt⟩ := checkedMul_eq_some hm
        obtain ⟨rfl, hdlt⟩ := checkedAdd_eq_some hdp
        obtain ⟨h1, h2, -, -⟩ := init_commit_ok (init_validate_ok h)
        exact ⟨h1, h2⟩
  · intro hov
    unfold initialize_financing
    split
    · rfl
    split
    · rfl
    next m hm => exact absurd (checkedMul_eq_some hm).2 hov
  · intro hge
    unfold initialize_financing
    split
    · rfl
    split
    · rfl
    next m hm =>
      try dsimp only
      split
      · rfl
      next dp hdp =>
        obtain ⟨rfl, hmlt⟩ := checkedMul_eq_some hm
        obtain ⟨rfl, hdlt⟩ := checkedAdd_eq_some hdp
        omega

/-- Claim C7 witness: the overflow clause applied to concrete arguments
whose financing amount times markup bps is 2 to the 80. -/
theorem c7_markup_deferred_checked_witness :
    (initialize_financing finCfg counterZero 9 7 XNT_MINT 0
      argsMarkupOverflow).isOk = false :=
  (c7_markup_deferred_checked finCfg counterZero 9 7 XNT_MINT 0
    argsMarkupOverflow).2.1 (by decide)

/-! ## Claim C8 -/

lemma mock_swap_no_negative_equity (vb ua fm : Nat) :
    mock_swap_usdc_to_asset vb ua fm ≠ .err .NegativeEquity := by
  intro h
  unfold mock_swap_usdc_to_asset at h
  repeat' (first | split at h | simp at h)

/-- Claim C8 counterexample: an origination whose collateral USD value is
exactly equal to the markup amount, so the collateral does not strictly
exceed the markup, succeeds: the handler only rejects strict shortfall. -/
theorem c8_equal_collateral_and_markup_accepted :
    stateEqualEquity.collateral_usd_value = stateEqualEquity.markup_fees ∧
    initialize_financing finCfg counterZero 9 7 XNT_MINT 1000000000000
      argsEqualEquity = .ok outEqualEquity := by
  exact ⟨by decide, by decide⟩

set_option maxRecDepth 8000 in
lemma init_validate_ltv_negative_equity {counter : UserPositionCounter}
    {user cm fm vb : Nat} {args : InitFinancingArgs} {ma dp : Nat}
    (h : init_validate_ltv counter user cm fm vb args ma dp =
      .err .NegativeEquity) :
    init_commit counter user cm fm vb args ma dp =
      .err .NegativeEquity := by
  unfold init_validate_ltv at h
  repeat' (first | split at h | simp at h)
  exact h

set_option maxRecDepth 8000 in
lemma init_validate_negative_equity {counter : UserPositionCounter}
    {user cm fm vb : Nat} {args : InitFinancingArgs} {ma dp : Nat}
    (h : init_validate counter user cm fm vb args ma dp =
      .err .NegativeEquity) :
    init_commit counter user cm fm vb args ma dp =
      .err .NegativeEquity := by
  unfold init_validate at h
  repeat' (first | split at h | simp at h)
  exact init_validate_ltv_negative_equity h

set_option maxRecDepth 8000 in
lemma init_commit_negative_equity {counter : UserPositionCounter}
    {user cm fm vb : Nat} {args : InitFinancingArgs} {ma dp : Nat}
    (h : init_commit counter user cm fm vb args ma dp =
      .err .NegativeEquity) :
    args.collateral_usd_value < ma := by
  unfold init_commit at h
  try dsimp only at h
  repeat' (first | split at h | simp at h)
  all_goals try (subst h; exact absurd (by assumption) (mock_swap_no_negative_equity _ _ _))
  all_goals omega

/-- Claim C8 (amended): initialize_financing enforces the equity bound
with a non-strict comparison: on success the markup amount never exceeds
the collateral USD value, equality included, and the negative-equity error
is raised exactly on inputs whose collateral USD value is strictly below
the markup amount. -/
theorem c8_negative_equity_strict (config : ProtocolConfig)
    (counter : UserPositionCounter)
    (user cmint fmint vbal : Nat) (args : InitFinancingArgs) :
    (∀ out, initialize_financing config counter user cmint fmint vbal args
        = .ok out →
      out.state.markup_fees ≤ out.state.collateral_usd_value) ∧
    (initialize_financing config counter user cmint fmint vbal args =
        .err .NegativeEquity →
      args.collateral_usd_value <
        args.financing_usdc_amount * args.markup_bps / 10000) := by
  refine ⟨?_, ?_⟩
  · intro out h
    unfold initialize_financing at h
    split at h
    · exact Result.noConfusion h
    split at h
    · exact Result.noConfusion h
    next m hm =>
      try dsimp only at h
      split at h
      · exact Result.noConfusion h
      next dp hdp =>
        obtain ⟨h1, -, h3, h4⟩ := init_commit_ok (init_validate_ok h)
        rw [h1, h3]
        exact h4
  · intro h
    unfold initialize_financing at h
    split at h
    · simp at h
    split at h
    · simp at h
    next m hm =>
      try dsimp only at h
      split at h
      · simp at h
      next dp hdp =>
        obtain ⟨rfl, hmlt⟩ := checkedMul_eq_some hm
        exact init_commit_negative_equity (init_validate_negative_equity h)

/-- Claim C8 witness: the amended theorem applied to the equal-equity
origination, whose stored markup equals the stored collateral value. -/
theorem c8_negative_equity_strict_witness :
    outEqualEquity.state.markup_fees ≤
      outEqualEquity.state.collateral_usd_value :=
  (c8_negative_equity_strict finCfg counterZero 9 7 XNT_MINT
    1000000000000 argsEqualEquity).1 outEqualEquity (by decide)

/-! ## Claim C9 -/

/-- Claim C9: distribute_liquidation_proceeds is total and unguarded: for
every representable total_proceeds and every record, with no caller
authorization and no requirement that a snapshot was frozen or that
execute_liquidation ran, it succeeds, records the fee as floor of
total_proceeds times 3 over 100 and the user return as the remainder, and
resets the frozen slot, frozen price and executed flag. -/
theorem c9_distribute_total_and_unguarded (a : LiquidationAuthority)
    (tp : Nat) (h : tp < U64) :
    distribute_liquidation_proceeds a tp =
      .ok { a with last_fee_accrued := tp * 3 / 100,
                   last_user_return := tp - tp * 3 / 100,
                   frozen_snapshot_slot := 0, frozen_price := 0,
                   executed := false } := by
  have h3 : tp * 3 < U128 := by
    have h1 : tp * 3 < U64 * 3 := by omega
    have h2 : U64 * 3 < U128 := by norm_num [U64, U128]
    omega
  have hfee : tp * 3 / 100 ≤ tp := by omega
  have hfeelt : tp * 3 / 100 < U64 := lt_of_le_of_lt hfee h
  unfold distribute_liquidation_proceeds
  rw [if_neg (not_not_intro h3)]
  try dsimp only
  rw [Nat.mod_eq_of_lt hfeelt]
  unfold checkedSub
  rw [if_pos hfee]

/-- Claim C9 witness: distributing 100 on the idle record, never frozen
and never executed, succeeds with fee 3 and user return 97. -/
theorem c9_distribute_total_and_unguarded_witness :
    distribute_liquidation_proceeds liqAuthIdle 100 =
      .ok { liqAuthIdle with
            last_fee_accrued := 3
            last_user_return := 97
            frozen_snapshot_slot := 0
            frozen_price := 0
            executed := false } :=
  c9_distribute_total_and_unguarded liqAuthIdle 100 (by decide)

/-! ## Claim C10 -/

/-- Claim C10 counterexample: on a paused pool with positive totalShares
whose full redeem amount is within the available balance, withdrawing all
shares fails with the paused error, so full exit is not permitted for
every pool state meeting the liquidity condition. -/
theorem c10_full_exit_blocked_when_paused :
    0 < pausedUnitVault.total_shares ∧
    pausedUnitVault.vault_usdc_balance * pausedUnitVault.total_shares /
        pausedUnitVault.total_shares ≤
      pausedUnitVault.vault_usdc_balance -
        pausedUnitVault.locked_for_financing ∧
    withdraw_usdc pausedUnitVault pausedUnitVault.total_shares =
      .err .VaultPaused := by
  exact ⟨by decide, by decide, by decide⟩

/-- Claim C10 (amended): on every well-formed unpaused pool with positive
totalShares, withdrawing shares equal to totalShares succeeds whenever the
redeem amount, which is the whole balance, does not exceed the available
balance; the exit burns every share, leaving totalShares zero, and
share_price then returns the fixed base price 1000000, so the positive
share-price check passes rather than rejecting the final withdrawal. -/
theorem c10_full_exit_resets_base_price (s : LPVaultState) (hwf : s.wf)
    (hp : s.paused = false) (ht : 0 < s.total_shares)
    (ha : s.vault_usdc_balance ≤
      s.vault_usdc_balance - s.locked_for_financing) :
    ∃ out, withdraw_usdc s s.total_shares = .ok out ∧
      out.amount = s.vault_usdc_balance ∧
      out.vault.total_shares = 0 ∧
      out.vault.share_price = 1000000 := by
  obtain ⟨hts, hbal, hlock⟩ := hwf
  have hred : s.redeem_amount s.total_shares = .ok s.vault_usdc_balance := by
    have h0 := redeem_amount_eq s s.total_shares ht (le_refl _) hbal
    rwa [Nat.mul_div_cancel _ ht] at h0
  unfold withdraw_usdc
  rw [if_neg (by simp [hp])]
  rw [if_neg (not_not_intro ht)]
  rw [if_neg (not_not_intro (le_refl s.total_shares))]
  rw [hred]
  try dsimp only
  rw [if_neg (not_not_intro ha)]
  try dsimp only
  rw [if_neg (not_not_intro (by
    simp [LPVaultState.share_price, Nat.sub_self]))]
  refine ⟨_, rfl, rfl, ?_, ?_⟩
  · rw [update_utilization_shares]
    try dsimp only
    exact Nat.sub_self _
  · rw [update_utilization_share_price]
    unfold LPVaultState.share_price
    try dsimp only
    rw [if_pos (Nat.sub_self _)]

/-- Claim C10 witness: the full exit theorem applied to the concrete
unpaused pool with 1000 shares, balance one million and nothing locked. -/
theorem c10_full_exit_resets_base_price_witness :
    (withdraw_usdc poolDemo poolDemo.total_shares).isOk = true := by
  obtain ⟨out, h1, -, -, -⟩ :=
    c10_full_exit_resets_base_price poolDemo (by decide) rfl (by decide)
      (by decide)
  rw [h1]
  rfl

end XLeverage